import Mathlib

/-!
Verification of the dev-server in `src/reader/dev-server.py`: a static file
server (`CORSRequestHandler`, a subclass of the standard library's
`SimpleHTTPRequestHandler`) that adds five fixed cross-origin headers to
every response, answers `OPTIONS` with an empty `200`, and serves files from
the working directory on port 8080.

The subclass's own code (`end_headers`, `do_OPTIONS`, the `PORT` constant and
the `__main__` block) is embedded directly from the source.  The behaviour of
the underlying standard library (header flushing, static file resolution, the
serve loop, socket binding) is not part of this repository; those parts are
modelled from the specification and carry a `Modelled from the spec:` note.
-/

/-- A single HTTP response header: a name and a value. -/
structure Header where
  name : String
  value : String
deriving DecidableEq, Repr

/-- What the handler writes on the wire while finishing a response's header
block: header lines followed by the blank line terminating the block. -/
inductive WireEvent where
  | headerLine (name value : String)
  | endOfHeaders
deriving DecidableEq, Repr

/-- The view of a header line as a `Header`. -/
def Header.toEvent (h : Header) : WireEvent :=
  WireEvent.headerLine h.name h.value

/-- The handler's state while producing a response: headers buffered by
`send_header` and the events already written to the wire. -/
structure HandlerState where
  buffer : List Header
  wire : List WireEvent
deriving DecidableEq, Repr

/-- Modelled from the spec: the base handler's `send_header` buffers one
header line to be flushed when the header block is finished. -/
def send_header (s : HandlerState) (n v : String) : HandlerState :=
  { s with buffer := s.buffer ++ [Header.mk n v] }

/-- Modelled from the spec: the base handler's `end_headers` ("the terminal
finish-headers step") flushes every buffered header line to the wire, in
order, and terminates the header block with the blank line. -/
def baseEndHeaders (s : HandlerState) : HandlerState :=
  { buffer := [],
    wire := s.wire ++ s.buffer.map Header.toEvent ++ [WireEvent.endOfHeaders] }

/-- `CORSRequestHandler.end_headers` (dev-server.py lines 13-21): send the
five fixed cross-origin headers, then call the base class's `end_headers`. -/
def end_headers (s : HandlerState) : HandlerState :=
  baseEndHeaders
    (send_header
      (send_header
        (send_header
          (send_header
            (send_header s "Access-Control-Allow-Origin" "*")
            "Access-Control-Allow-Methods" "GET, POST, OPTIONS")
          "Access-Control-Allow-Headers" "Content-Type")
        "Cross-Origin-Embedder-Policy" "require-corp")
      "Cross-Origin-Opener-Policy" "same-origin")

/-- The five fixed headers of `CORSRequestHandler.end_headers`, in the order
the source sends them. -/
def corsHeaders : List Header :=
  [Header.mk "Access-Control-Allow-Origin" "*",
   Header.mk "Access-Control-Allow-Methods" "GET, POST, OPTIONS",
   Header.mk "Access-Control-Allow-Headers" "Content-Type",
   Header.mk "Cross-Origin-Embedder-Policy" "require-corp",
   Header.mk "Cross-Origin-Opener-Policy" "same-origin"]

/-- The header lines present in a wire trace. -/
def wireHeaders : List WireEvent → List Header
  | [] => []
  | WireEvent.headerLine n v :: rest => Header.mk n v :: wireHeaders rest
  | WireEvent.endOfHeaders :: rest => wireHeaders rest

/-- A finished HTTP response: status code, the wire trace of its header
block, its body bytes, and whether producing it touched the filesystem. -/
structure Response where
  status : Nat
  wire : List WireEvent
  body : List Nat
  fsAccessed : Bool
deriving DecidableEq, Repr

/-- The headers of a response, read off its wire trace. -/
def Response.headers (r : Response) : List Header :=
  wireHeaders r.wire

/-- Assemble a response whose header block is produced by buffering the base
handler's headers with `send_header` and finishing with the overridden
`end_headers`, as every code path of the handler does. -/
def mkResponse (status : Nat) (base : List Header) (body : List Nat)
    (touched : Bool) : Response :=
  { status := status,
    wire := (end_headers (HandlerState.mk base [])).wire,
    body := body,
    fsAccessed := touched }

/-- An HTTP request method. -/
inductive Method where
  | GET
  | HEAD
  | OPTIONS
  | POST
  | other (name : String)
deriving DecidableEq, Repr

/-- Split a list of characters at every occurrence of a separator. -/
def splitChars (sep : Char) : List Char → List (List Char)
  | [] => [[]]
  | c :: rest =>
    if c = sep then [] :: splitChars sep rest
    else
      match splitChars sep rest with
      | [] => [[c]]
      | s :: tail => (c :: s) :: tail

/-- Modelled from the spec: split a (percent-decoded) URL path into its
components, discarding empty components and the current-directory
component ".". -/
def pathComponents (p : String) : List String :=
  (((splitChars '/' p.data).map (fun cs => String.mk cs)).filter
    (fun c => c != "" && c != "."))

/-- Modelled from the spec: resolve path components against the root
directory, with ".." stepping up one directory; a path that would step above
the root escapes it and is a rejected traversal (`none`).  `acc` holds the
directories entered so far, innermost first. -/
def resolveInto : List String → List String → Option (List String)
  | acc, [] => some acc.reverse
  | acc, c :: rest =>
    if c = ".." then
      match acc with
      | [] => none
      | _ :: acc2 => resolveInto acc2 rest
    else resolveInto (c :: acc) rest

/-- Resolve a request path against the root: `none` when it escapes the
root, otherwise the components of the file under the root. -/
def resolvePath (p : String) : Option (List String) :=
  resolveInto [] (pathComponents p)

/-- The filesystem as the server sees it: regular files under the root
directory (keyed by their path components relative to the root) and files
outside the root, which the server must never serve. -/
structure FileSystem where
  files : List (List String × List Nat)
  outside : List (List String × List Nat)
deriving Repr

/-- Look up a file under the root by its resolved path components. -/
def FileSystem.lookupRoot (fs : FileSystem) (c : List String) : Option (List Nat) :=
  (fs.files.find? (fun e => e.1 == c)).map (fun e => e.2)

/-- Modelled from the spec: the Content-Type is inferred from the file
extension; the extension is what follows the last dot of the file name. -/
def extensionOf (name : String) : String :=
  match (splitChars '.' name.data).reverse with
  | ext :: _ :: _ => String.mk ext
  | _ => ""

/-- Modelled from the spec: content type inferred from the extension of the
last path component; a ".js" file is served as "text/javascript". -/
def guessContentType (comps : List String) : String :=
  match comps.getLast? with
  | none => "application/octet-stream"
  | some name =>
    match extensionOf name with
    | "js" => "text/javascript"
    | "html" => "text/html"
    | "css" => "text/css"
    | "json" => "application/json"
    | "png" => "image/png"
    | _ => "application/octet-stream"

/-- The Content-Type the base handler puts on its generated error pages. -/
def errorContentType : Header :=
  Header.mk "Content-Type" "text/html;charset=utf-8"

/-- The body bytes of the base handler's generated 404 error page. -/
def notFoundBody : List Nat :=
  ("404 Not Found".toList).map Char.toNat

/-- The body bytes of the base handler's generated 501 error page. -/
def notImplementedBody : List Nat :=
  ("501 Unsupported method".toList).map Char.toNat

/-- Modelled from the spec: `GET`/`HEAD` handling of the base static file
handler.  It resolves the URL path against the root; a path escaping the
root is rejected with `404` before any filesystem access; a path naming no
file under the root is answered `404`; an existing regular file is answered
`200` with the file's bytes and a Content-Type inferred from its extension.
`HEAD` (`sendBody = false`) sends the same status and headers with an empty
body.  Directories and index files are not modelled: every entry of the
modelled filesystem is a regular file. -/
def baseServeFile (fs : FileSystem) (p : String) (sendBody : Bool) : Response :=
  match resolvePath p with
  | none => mkResponse 404 [errorContentType]
      (if sendBody then notFoundBody else []) false
  | some comps =>
    match fs.lookupRoot comps with
    | none => mkResponse 404 [errorContentType]
        (if sendBody then notFoundBody else []) true
    | some bytes =>
        mkResponse 200
          [Header.mk "Content-Type" (guessContentType comps),
           Header.mk "Content-Length" (toString bytes.length)]
          (if sendBody then bytes else []) true

/-- The inherited `do_GET`: serve the file with its body. -/
def do_GET (fs : FileSystem) (p : String) : Response :=
  baseServeFile fs p true

/-- The inherited `do_HEAD`: same headers, empty body. -/
def do_HEAD (fs : FileSystem) (p : String) : Response :=
  baseServeFile fs p false

/-- `CORSRequestHandler.do_OPTIONS` (dev-server.py lines 23-25):
`send_response(200)` then `end_headers()`, writing no body and touching no
file.  The spec describes no default buffered headers, so the base header
buffer is empty. -/
def do_OPTIONS : Response :=
  mkResponse 200 [] [] false

/-- Modelled from the spec: a method the handler class has no `do_` method
for is answered with the base server's `501 Not Implemented` error. -/
def baseNotImplemented : Response :=
  mkResponse 501 [errorContentType] notImplementedBody false

/-- Modelled from the spec: the base server dispatches a request on its
method to the handler's `do_` methods; `do_OPTIONS` is the subclass's
override and runs before any file-resolution logic. -/
def handleRequest (fs : FileSystem) (m : Method) (p : String) : Response :=
  match m with
  | Method.OPTIONS => do_OPTIONS
  | Method.GET => do_GET fs p
  | Method.HEAD => do_HEAD fs p
  | _ => baseNotImplemented

/-- Modelled from the spec: the serve loop answers the inbound requests one
after another; answering one request never stops the loop. -/
def serveLoop (fs : FileSystem) : List (Method × String) → List Response
  | [] => []
  | (m, p) :: rest => handleRequest fs m p :: serveLoop fs rest

/-- The outcome of handling one request in the serve loop: a response sent,
or an error confined to that request and logged. -/
inductive ReqOutcome where
  | answered (r : Response)
  | errorLogged (e : String)
deriving DecidableEq, Repr

/-- Modelled from the spec: the base server catches any exception raised
while handling a single request or connection, logs it, and keeps accepting;
a per-request error never terminates the listening process.  The handler is
arbitrary, so the property covers file errors, malformed requests and client
disconnects alike. -/
def serveLoopCatching (handler : Method × String → Except String Response) :
    List (Method × String) → List ReqOutcome
  | [] => []
  | r :: rest =>
    (match handler r with
     | Except.ok resp => ReqOutcome.answered resp
     | Except.error e => ReqOutcome.errorLogged e) :: serveLoopCatching handler rest

/-- `PORT = 8080` (dev-server.py line 10). -/
def PORT : Nat := 8080

/-- The listener configuration of
`socketserver.TCPServer(("", PORT), CORSRequestHandler)` (line 30).  The
meaning of the empty host string and the wire protocol are modelled from the
spec: host "" binds on all interfaces, and the server speaks HTTP/1.1 over
TCP. -/
structure ServerConfig where
  bindHost : String
  port : Nat
  transport : String
  httpVersion : String
deriving DecidableEq, Repr

/-- The configuration the `__main__` block starts the server with. -/
def serverConfig : ServerConfig :=
  { bindHost := "", port := PORT, transport := "TCP", httpVersion := "HTTP/1.1" }

/-- Modelled from the spec: a bind host of "" (or the explicit wildcard
addresses) binds the listening socket on all interfaces. -/
def hostBindsAllInterfaces (h : String) : Bool :=
  h == "" || h == "0.0.0.0" || h == "::"

/-- The startup line printed by dev-server.py line 31. -/
def startupLine : String :=
  "🚀 Development server running at http://localhost:" ++ toString PORT ++ "/"

/-- The informational line printed by dev-server.py line 32. -/
def corsLine : String := "📝 CORS headers enabled for ES6 modules"

/-- The informational line printed by dev-server.py line 33. -/
def ctrlCLine : String := "🔄 Press Ctrl+C to stop"

/-- The shutdown line printed by dev-server.py line 37. -/
def stoppedLine : String := "\n👋 Server stopped"

/-- How the attempt to bind the listening socket can end. -/
inductive BindOutcome where
  | success
  | addrInUse
  | permissionDenied
deriving DecidableEq, Repr

/-- Modelled from the spec: binding a port already held by a running
instance fails with an address-in-use error; binding a free port
succeeds. -/
def bindAttempt (portHeld : Bool) : BindOutcome :=
  if portHeld then BindOutcome.addrInUse else BindOutcome.success

/-- The observable outcome of one run of the process: the lines printed, the
exit status, and whether the listener is still accepting connections when
the process ends. -/
structure RunResult where
  printed : List String
  exitCode : Nat
  acceptingAtExit : Bool
deriving DecidableEq, Repr

/-- Modelled from the spec: the diagnostic the runtime prints when the port
is already in use. -/
def addrInUseDiag : String := "OSError: [Errno 98] Address already in use"

/-- Modelled from the spec: the diagnostic the runtime prints when the
process lacks permission to bind the port. -/
def permissionDiag : String := "PermissionError: [Errno 13] Permission denied"

/-- The `__main__` block (dev-server.py lines 27-37).  Binding, the blocking
serve loop and interrupt delivery are modelled from the spec: a failed bind
raises, and the uncaught exception terminates the process with a non-zero
exit status after printing a diagnostic, before any startup line; on a
successful bind the three startup lines are printed and the loop serves
until a process interrupt, which the script's `except KeyboardInterrupt`
catches to print the shutdown line and return normally (exit status 0) with
the listener no longer accepting.  A run that is never interrupted never
terminates and is not modelled. -/
def mainProcess (bind : BindOutcome) : RunResult :=
  match bind with
  | BindOutcome.addrInUse =>
      { printed := [addrInUseDiag], exitCode := 1, acceptingAtExit := false }
  | BindOutcome.permissionDenied =>
      { printed := [permissionDiag], exitCode := 1, acceptingAtExit := false }
  | BindOutcome.success =>
      { printed := [startupLine, corsLine, ctrlCLine, stoppedLine],
        exitCode := 0, acceptingAtExit := false }

/-- Modelled from the spec: starting a second process on the port held by a
running first instance.  The second process's bind fails inside that process
and performs no operation on the first instance, whose serving state is
returned unchanged beside the second process's run result. -/
def startSecondInstance (firstServing : Bool) : Bool × RunResult :=
  (firstServing, mainProcess (bindAttempt firstServing))

/-- A demonstration filesystem: one JavaScript file under the root and one
file outside it. -/
def demoFS : FileSystem :=
  { files := [(["app.js"], [99, 111, 100, 101])],
    outside := [(["secret.txt"], [42])] }

theorem wireHeaders_flush (l : List Header) :
    wireHeaders (l.map Header.toEvent ++ [WireEvent.endOfHeaders]) = l := by
  induction l with
  | nil => rfl
  | cons h t ih => simpa [wireHeaders, Header.toEvent] using ih

theorem mkResponse_headers (st : Nat) (base : List Header) (body : List Nat) (t : Bool) :
    (mkResponse st base body t).headers = base ++ corsHeaders := by
  simp only [mkResponse, Response.headers, end_headers, send_header, baseEndHeaders,
    List.nil_append, List.append_assoc]
  rw [wireHeaders_flush]
  simp [corsHeaders]

theorem baseServeFile_headers_split (fs : FileSystem) (p : String) (b : Bool) :
    ∃ base, (baseServeFile fs p b).headers = base ++ corsHeaders := by
  unfold baseServeFile
  split
  · exact ⟨_, mkResponse_headers _ _ _ _⟩
  · split
    · exact ⟨_, mkResponse_headers _ _ _ _⟩
    · exact ⟨_, mkResponse_headers _ _ _ _⟩

theorem handleRequest_headers_split (fs : FileSystem) (m : Method) (p : String) :
    ∃ base, (handleRequest fs m p).headers = base ++ corsHeaders := by
  cases m with
  | GET => exact baseServeFile_headers_split fs p true
  | HEAD => exact baseServeFile_headers_split fs p false
  | OPTIONS => exact ⟨[], mkResponse_headers 200 [] [] false⟩
  | POST => exact ⟨_, mkResponse_headers _ _ _ _⟩
  | other nm => exact ⟨_, mkResponse_headers _ _ _ _⟩

theorem serveLoop_cons (fs : FileSystem) (m : Method) (p : String)
    (rest : List (Method × String)) :
    serveLoop fs ((m, p) :: rest) = handleRequest fs m p :: serveLoop fs rest := rfl

theorem serveLoop_length (fs : FileSystem) (reqs : List (Method × String)) :
    (serveLoop fs reqs).length = reqs.length := by
  induction reqs with
  | nil => rfl
  | cons r rest ih =>
    obtain ⟨m, p⟩ := r
    simp [serveLoop, ih]

/-- Claim C1: every response, whatever the request's method and path and
whatever the resulting status code, carries all five fixed cross-origin
headers with exactly the specified values. -/
theorem claim1_every_response_carries_cors_headers
    (fs : FileSystem) (m : Method) (p : String) :
    Header.mk "Access-Control-Allow-Origin" "*" ∈ (handleRequest fs m p).headers ∧
    Header.mk "Access-Control-Allow-Methods" "GET, POST, OPTIONS" ∈ (handleRequest fs m p).headers ∧
    Header.mk "Access-Control-Allow-Headers" "Content-Type" ∈ (handleRequest fs m p).headers ∧
    Header.mk "Cross-Origin-Embedder-Policy" "require-corp" ∈ (handleRequest fs m p).headers ∧
    Header.mk "Cross-Origin-Opener-Policy" "same-origin" ∈ (handleRequest fs m p).headers := by
  obtain ⟨base, hb⟩ := handleRequest_headers_split fs m p
  rw [hb]
  refine ⟨?_, ?_, ?_, ?_, ?_⟩ <;> simp [corsHeaders]

/-- Claim C2: an OPTIONS request, whatever its path and whether or not that
path exists, is answered with status 200, an empty body and exactly the five
fixed headers, without any filesystem access. -/
theorem claim2_options_answered_200_empty_no_fs
    (fs : FileSystem) (p : String) :
    (handleRequest fs Method.OPTIONS p).status = 200 ∧
    (handleRequest fs Method.OPTIONS p).body = [] ∧
    (handleRequest fs Method.OPTIONS p).fsAccessed = false ∧
    (handleRequest fs Method.OPTIONS p).headers = corsHeaders := by
  refine ⟨rfl, rfl, rfl, ?_⟩
  show (mkResponse 200 [] [] false).headers = corsHeaders
  simpa using mkResponse_headers 200 [] [] false

/-- Claim C3: a GET for a path resolving to an existing regular file under
the root is answered 200 with the file's bytes and a Content-Type inferred
from the file extension; for a ".js" file that Content-Type is
"text/javascript". -/
theorem claim3_get_existing_file
    (fs : FileSystem) (p : String) (comps : List String) (bytes : List Nat)
    (hres : resolvePath p = some comps)
    (hfile : fs.lookupRoot comps = some bytes) :
    (handleRequest fs Method.GET p).status = 200 ∧
    (handleRequest fs Method.GET p).body = bytes ∧
    Header.mk "Content-Type" (guessContentType comps) ∈ (handleRequest fs Method.GET p).headers ∧
    (∀ nm, comps.getLast? = some nm → extensionOf nm = "js" →
      Header.mk "Content-Type" "text/javascript" ∈ (handleRequest fs Method.GET p).headers) := by
  have hreq : handleRequest fs Method.GET p =
      mkResponse 200 [Header.mk "Content-Type" (guessContentType comps),
        Header.mk "Content-Length" (toString bytes.length)] bytes true := by
    simp [handleRequest, do_GET, baseServeFile, hres, hfile]
  refine ⟨by rw [hreq]; rfl, by rw [hreq]; rfl, ?_, ?_⟩
  · rw [hreq, mkResponse_headers]
    simp
  · intro nm hlast hext
    have hct : guessContentType comps = "text/javascript" := by
      simp [guessContentType, hlast, hext]
    rw [hreq, mkResponse_headers]
    simp [hct]

theorem claim3_witness :
    (handleRequest demoFS Method.GET "/app.js").status = 200 ∧
    (handleRequest demoFS Method.GET "/app.js").body = [99, 111, 100, 101] ∧
    Header.mk "Content-Type" (guessContentType ["app.js"]) ∈
      (handleRequest demoFS Method.GET "/app.js").headers ∧
    Header.mk "Content-Type" "text/javascript" ∈
      (handleRequest demoFS Method.GET "/app.js").headers :=
  have h := claim3_get_existing_file demoFS "/app.js" ["app.js"] [99, 111, 100, 101]
    (by decide) (by decide)
  ⟨h.1, h.2.1, h.2.2.1, h.2.2.2 "app.js" (by decide) (by decide)⟩

/-- Claim C4: a GET whose path resolves under the root but names no existing
file is answered 404, the response still carries all five fixed headers, and
the serve loop goes on answering the subsequent requests. -/
theorem claim4_get_missing_404_and_server_continues
    (fs : FileSystem) (p : String) (comps : List String)
    (rest : List (Method × String))
    (hres : resolvePath p = some comps)
    (hmiss : fs.lookupRoot comps = none) :
    (handleRequest fs Method.GET p).status = 404 ∧
    Header.mk "Access-Control-Allow-Origin" "*" ∈ (handleRequest fs Method.GET p).headers ∧
    Header.mk "Access-Control-Allow-Methods" "GET, POST, OPTIONS" ∈ (handleRequest fs Method.GET p).headers ∧
    Header.mk "Access-Control-Allow-Headers" "Content-Type" ∈ (handleRequest fs Method.GET p).headers ∧
    Header.mk "Cross-Origin-Embedder-Policy" "require-corp" ∈ (handleRequest fs Method.GET p).headers ∧
    Header.mk "Cross-Origin-Opener-Policy" "same-origin" ∈ (handleRequest fs Method.GET p).headers ∧
    serveLoop fs ((Method.GET, p) :: rest) =
      handleRequest fs Method.GET p :: serveLoop fs rest ∧
    (serveLoop fs ((Method.GET, p) :: rest)).length = rest.length + 1 := by
  have hreq : handleRequest fs Method.GET p =
      mkResponse 404 [errorContentType] notFoundBody true := by
    simp [handleRequest, do_GET, baseServeFile, hres, hmiss]
  refine ⟨by rw [hreq]; rfl, ?_, ?_, ?_, ?_, ?_, rfl,
    by simp [serveLoop_cons, serveLoop_length]⟩ <;>
  · rw [hreq, mkResponse_headers]
    simp [corsHeaders]

theorem claim4_witness :
    (handleRequest demoFS Method.GET "/missing.txt").status = 404 ∧
    Header.mk "Access-Control-Allow-Origin" "*" ∈ (handleRequest demoFS Method.GET "/missing.txt").headers ∧
    Header.mk "Access-Control-Allow-Methods" "GET, POST, OPTIONS" ∈ (handleRequest demoFS Method.GET "/missing.txt").headers ∧
    Header.mk "Access-Control-Allow-Headers" "Content-Type" ∈ (handleRequest demoFS Method.GET "/missing.txt").headers ∧
    Header.mk "Cross-Origin-Embedder-Policy" "require-corp" ∈ (handleRequest demoFS Method.GET "/missing.txt").headers ∧
    Header.mk "Cross-Origin-Opener-Policy" "same-origin" ∈ (handleRequest demoFS Method.GET "/missing.txt").headers ∧
    serveLoop demoFS ((Method.GET, "/missing.txt") :: [(Method.GET, "/app.js")]) =
      handleRequest demoFS Method.GET "/missing.txt" :: serveLoop demoFS [(Method.GET, "/app.js")] ∧
    (serveLoop demoFS ((Method.GET, "/missing.txt") :: [(Method.GET, "/app.js")])).length =
      [(Method.GET, "/app.js")].length + 1 :=
  claim4_get_missing_404_and_server_continues demoFS "/missing.txt" ["missing.txt"]
    [(Method.GET, "/app.js")] (by decide) (by decide)

/-- Claim C5: the response never depends on the files outside the root (so
their contents are never served), and a request whose path would resolve
above the root is answered 404 with the generated error body and no
filesystem access. -/
theorem claim5_no_content_from_outside_root
    (files o1 o2 : List (List String × List Nat)) (m : Method) (p : String)
    (fs : FileSystem) (q : String)
    (hescape : resolvePath q = none) :
    handleRequest (FileSystem.mk files o1) m p =
      handleRequest (FileSystem.mk files o2) m p ∧
    (handleRequest fs Method.GET q).status = 404 ∧
    (handleRequest fs Method.HEAD q).status = 404 ∧
    (handleRequest fs Method.GET q).body = notFoundBody ∧
    (handleRequest fs Method.GET q).fsAccessed = false ∧
    (handleRequest fs Method.HEAD q).fsAccessed = false := by
  refine ⟨?_, ?_, ?_, ?_, ?_, ?_⟩
  · cases m <;> rfl
  all_goals simp [handleRequest, do_GET, do_HEAD, baseServeFile, hescape, mkResponse]

theorem claim5_witness :
    handleRequest (FileSystem.mk [(["a"], [1])] []) Method.GET "/a" =
      handleRequest (FileSystem.mk [(["a"], [1])] [(["x"], [2])]) Method.GET "/a" ∧
    (handleRequest demoFS Method.GET "/../secret").status = 404 ∧
    (handleRequest demoFS Method.HEAD "/../secret").status = 404 ∧
    (handleRequest demoFS Method.GET "/../secret").body = notFoundBody ∧
    (handleRequest demoFS Method.GET "/../secret").fsAccessed = false ∧
    (handleRequest demoFS Method.HEAD "/../secret").fsAccessed = false :=
  claim5_no_content_from_outside_root [(["a"], [1])] [] [(["x"], [2])]
    Method.GET "/a" demoFS "/../secret" (by decide)

/-- Claim C6: the server is configured to speak HTTP/1.1 over TCP on port
8080, bound on all interfaces. -/
theorem claim6_listener_config :
    serverConfig.port = 8080 ∧ PORT = 8080 ∧
    hostBindsAllInterfaces serverConfig.bindHost = true ∧
    serverConfig.transport = "TCP" ∧
    serverConfig.httpVersion = "HTTP/1.1" :=
  ⟨rfl, rfl, by decide, rfl, rfl⟩

/-- Claim C7: a failed bind (port in use or permission denied) is fatal: the
process prints a diagnostic and exits non-zero; a second instance started on
a held port gets the address-in-use failure and leaves the first instance's
serving state untouched. -/
theorem claim7_bind_failure_fatal_nonzero
    (b : BindOutcome) (hfail : b ≠ BindOutcome.success) :
    (mainProcess b).exitCode ≠ 0 ∧
    (mainProcess b).printed ≠ [] ∧
    bindAttempt true = BindOutcome.addrInUse ∧
    (startSecondInstance true).1 = true ∧
    (startSecondInstance true).2.exitCode ≠ 0 := by
  cases b with
  | success => exact absurd rfl hfail
  | addrInUse => exact ⟨by decide, by simp [mainProcess], by decide, by decide, by decide⟩
  | permissionDenied => exact ⟨by decide, by simp [mainProcess], by decide, by decide, by decide⟩

theorem claim7_witness :
    (mainProcess BindOutcome.addrInUse).exitCode ≠ 0 ∧
    (mainProcess BindOutcome.addrInUse).printed ≠ [] ∧
    bindAttempt true = BindOutcome.addrInUse ∧
    (startSecondInstance true).1 = true ∧
    (startSecondInstance true).2.exitCode ≠ 0 :=
  claim7_bind_failure_fatal_nonzero BindOutcome.addrInUse (by decide)

/-- Claim C8: a process interrupt while serving makes the loop stop
accepting, prints the shutdown line, and the process exits with status 0. -/
theorem claim8_interrupt_clean_shutdown :
    (mainProcess BindOutcome.success).exitCode = 0 ∧
    stoppedLine ∈ (mainProcess BindOutcome.success).printed ∧
    (mainProcess BindOutcome.success).acceptingAtExit = false := by
  refine ⟨rfl, ?_, rfl⟩
  simp [mainProcess]

/-- Claim C9: an error raised while handling one request is confined to that
request: the loop records an outcome for every request, and the requests
after a failing one are handled exactly as they would be on their own. -/
theorem claim9_request_errors_confined
    (handler : Method × String → Except String Response)
    (reqs1 reqs2 : List (Method × String)) :
    serveLoopCatching handler (reqs1 ++ reqs2) =
      serveLoopCatching handler reqs1 ++ serveLoopCatching handler reqs2 ∧
    (serveLoopCatching handler reqs1).length = reqs1.length := by
  constructor
  · induction reqs1 with
    | nil => rfl
    | cons r rest ih => simp [serveLoopCatching, ih]
  · induction reqs1 with
    | nil => rfl
    | cons r rest ih => simp [serveLoopCatching, ih]

/-- Claim C10: `end_headers` writes, after every header the base handler had
buffered, the five cross-origin headers in their fixed order, immediately
followed by the line terminating the header block. -/
theorem claim10_cors_appended_last_in_fixed_order (s : HandlerState) :
    end_headers s = HandlerState.mk []
      (s.wire ++ s.buffer.map Header.toEvent ++ corsHeaders.map Header.toEvent
        ++ [WireEvent.endOfHeaders]) := by
  simp [end_headers, send_header, baseEndHeaders, corsHeaders, Header.toEvent]
